import Mathlib

/-!
# Verification of the Adzuna job-search tool adapter

Shallow embedding of `src/components/agent/tools/adzuna.ts`:
the provider-to-canonical job mapping (`mapAdzunaJobToJob`), the
request-parameter construction, the zod input schema bounds, and the
`execute` retry loop with timeout/network-error classification.

Effects are made explicit:
* the environment (`ADZUNA_APP_ID` / `ADZUNA_APP_KEY`) is a record of
  `Option String` values;
* the network is an oracle mapping the outbound query parameters and the
  attempt number to the outcome of that `fetch` call (a resolved HTTP
  response, or a rejection carrying a JS error value);
* `uuidv4()` and `new Date().toISOString()` are injected as an id
  generator and a timestamp string;
* the loop also returns an `ExecLog` recording how many network attempts
  were made and which backoff delays (in milliseconds) were awaited.
-/

/-- JS string `includes`, on lists of characters: does `hay` start with `needle`? -/
def startsWithL : List Char → List Char → Bool
  | [], _ => true
  | _ :: _, [] => false
  | a :: as, b :: bs => a == b && startsWithL as bs

/-- Does `needle` occur as a contiguous sublist of `hay`? -/
def includesFromL (needle : List Char) : List Char → Bool
  | [] => startsWithL needle []
  | h :: rest => startsWithL needle (h :: rest) || includesFromL needle rest

/-- JS `hay.includes(needle)` on strings. -/
def jsIncludes (hay needle : String) : Bool :=
  includesFromL needle.data hay.data

/-- JS `String.prototype.toLowerCase()`: lower-case every character. -/
def jsToLower (s : String) : String :=
  String.mk (s.data.map Char.toLower)

/-- Insert a comma after every third character, working on a reversed digit list. -/
def groupRev : List Char → List Char
  | a :: b :: c :: d :: rest => a :: b :: c :: ',' :: groupRev (d :: rest)
  | ds => ds

/-- JS `Number.prototype.toLocaleString()` for a natural number in the default
en-US locale: decimal digits with thousands separators. -/
def localeString (n : Nat) : String :=
  String.mk (groupRev (toString n).data.reverse).reverse

/-- JS truthiness of a possibly-undefined string (`undefined` and `""` are falsy). -/
def strTruthy : Option String → Bool
  | none => false
  | some s => s != ""

/-- JS truthiness of a possibly-undefined number (`undefined` and `0` are falsy). -/
def numTruthy : Option Nat → Bool
  | none => false
  | some n => n != 0

/-- JS `a || b` on possibly-undefined strings: `a` when truthy, else `b`. -/
def jsOrOpt (a b : Option String) : Option String :=
  if strTruthy a then a else b

/-- The provider's wire shape for one job (`interface AdzunaJob`).
`company.display_name` and `location.display_name` are flattened into
single fields; unused optional members are kept for fidelity. -/
structure AdzunaJob where
  id : String
  title : String
  company_display_name : String
  location_display_name : String
  location_area : Option (List String) := none
  description : String
  salary_min : Option Nat := none
  salary_max : Option Nat := none
  redirect_url : String
  category_label : Option String := none
  contract_type : Option String := none
  created : Option String := none
deriving Repr, DecidableEq

/-- The provider's wire shape for a search response (`interface AdzunaResponse`). -/
structure AdzunaResponse where
  results : List AdzunaJob
  count : Nat
  mean : Option Nat := none
deriving Repr, DecidableEq

/-- The canonical job record (`Job` from `@/types/job`, as populated here). -/
structure Job where
  id : String
  title : String
  company : String
  location : String
  salary : Option String
  description : String
  requirements : List String
  url : String
  source : String
  discoveredAt : String
deriving Repr, DecidableEq

/-- The requirement-extraction heuristic of `mapAdzunaJobToJob`: two
independent substring checks on the lowercased description. -/
def extractRequirements (description : String) : List String :=
  let descLower := jsToLower description
  (if jsIncludes descLower "bachelor" || jsIncludes descLower "degree" then
    ["Bachelor's degree or equivalent experience"]
  else []) ++
  (if jsIncludes descLower "experience" then
    ["Relevant professional experience"]
  else [])

/-- The salary-formatting branch of `mapAdzunaJobToJob`. The source guards
with JS truthiness (`if (adzunaJob.salary_min && adzunaJob.salary_max)`),
so a present-but-zero bound counts as absent. -/
def formatSalary (salary_min salary_max : Option Nat) : Option String :=
  if numTruthy salary_min && numTruthy salary_max then
    some ("$" ++ localeString (salary_min.getD 0) ++ " - $" ++
      localeString (salary_max.getD 0))
  else if numTruthy salary_min then
    some ("$" ++ localeString (salary_min.getD 0) ++ "+")
  else
    none

/-- `mapAdzunaJobToJob`, with the fresh uuid and the capture timestamp
injected as arguments. -/
def mapAdzunaJobToJob (freshId nowIso : String) (adzunaJob : AdzunaJob) : Job :=
  { id := freshId
    title := adzunaJob.title
    company := adzunaJob.company_display_name
    location := adzunaJob.location_display_name
    salary := formatSalary adzunaJob.salary_min adzunaJob.salary_max
    description := adzunaJob.description
    requirements := extractRequirements adzunaJob.description
    url := adzunaJob.redirect_url
    source := "adzuna"
    discoveredAt := nowIso }

/-- A JS error value as inspected by the catch block: its `name`, `message`,
`code`, `cause?.code`, and whether it is an `instanceof Error`. -/
structure JsError where
  name : String
  message : String
  code : Option String := none
  causeCode : Option String := none
  isErrorInstance : Bool := true
deriving Repr, DecidableEq

/-- `const errorCode = error.code || error.cause?.code`. -/
def errorCodeOf (e : JsError) : Option String :=
  jsOrOpt e.code e.causeCode

/-- Is the extracted code one of the three retryable network-error codes? -/
def retryableCode (c : Option String) : Bool :=
  c == some "ETIMEDOUT" || c == some "ECONNRESET" || c == some "ECONNREFUSED"

deriving instance DecidableEq for Except

/-- A resolved `fetch` response: status, status text, and the result of
`response.json()` (which may itself reject). -/
structure HttpResponse where
  status : Nat
  statusText : String
  jsonBody : Except JsError AdzunaResponse
deriving Repr, DecidableEq

/-- `Response.ok`: status in the inclusive range 200-299. -/
def respOk (r : HttpResponse) : Bool :=
  200 ≤ r.status && r.status < 300

/-- Outcome of one `fetch` call: resolution with a response, or rejection
with a JS error (an `AbortError` models the 10-second timeout firing). -/
inductive FetchOutcome where
  | success (resp : HttpResponse)
  | failure (e : JsError)
deriving Repr, DecidableEq

/-- The environment configuration the tool reads. -/
structure Env where
  adzunaAppId : Option String
  adzunaAppKey : Option String
deriving Repr, DecidableEq

/-- The result object `execute` resolves with: exactly one of the two
shapes `{action:"display", jobs, count, query, location, message}` and
`{action:"error", error, jobs}`. -/
inductive SearchResult where
  | display (jobs : List Job) (count : Nat) (query : String)
      (location : String) (message : String)
  | error (errorMsg : String) (jobs : List Job)
deriving Repr, DecidableEq

/-- The `action` discriminant of a result. -/
def SearchResult.action : SearchResult → String
  | .display .. => "display"
  | .error .. => "error"

/-- The `jobs` field of a result. -/
def SearchResult.jobsOf : SearchResult → List Job
  | .display jobs .. => jobs
  | .error _ jobs => jobs

/-- The `error` field of a result (`none` on the display shape). -/
def SearchResult.errStr : SearchResult → Option String
  | .display .. => none
  | .error msg _ => some msg

/-- Trace of observable effects of one `execute` call: how many `fetch`
attempts were made, and the backoff delays awaited between them (ms). -/
structure ExecLog where
  fetchCalls : Nat
  delays : List Nat
deriving Repr, DecidableEq

/-- `maxRetries = 3`. -/
def maxRetries : Nat := 3

/-- The error message returned when credentials are missing. -/
def credsMissingMsg : String :=
  "Adzuna API credentials are not configured. Please add ADZUNA_APP_ID and ADZUNA_APP_KEY to your environment variables."

/-- The query parameters of the outbound request URL, in insertion order:
`app_id`, `app_key`, `results_per_page`, `what`, and `where` only when a
truthy location was supplied (`if (location) params.append(...)`). -/
def buildParams (appId apiKey : String) (resultsCount : Int) (query : String)
    (location : Option String) : List (String × String) :=
  [("app_id", appId), ("app_key", apiKey),
   ("results_per_page", toString resultsCount), ("what", query)] ++
  (if strTruthy location then [("where", location.getD "")] else [])

/-- The summary message of a successful result. -/
def displayMessage (found : Nat) (query : String) (location : Option String) : String :=
  "Found " ++ toString found ++ " jobs matching \"" ++ query ++ "\"" ++
    (if strTruthy location then " in " ++ location.getD "" else "")

/-- The display-shaped result built from a parsed response body. -/
def displayResult (genId : Nat → String) (nowIso query : String)
    (location : Option String) (data : AdzunaResponse) : SearchResult :=
  let jobs := data.results.mapIdx fun i j => mapAdzunaJobToJob (genId i) nowIso j
  .display jobs jobs.length query
    (if strTruthy location then location.getD "" else "all locations")
    (displayMessage jobs.length query location)

/-- The try block of one attempt: a resolved non-ok response or a parsed
body yield a result (`Except.ok`); a fetch rejection or a `json()`
rejection is a thrown error (`Except.error`) for the catch block. -/
def tryAttempt (genId : Nat → String) (nowIso query : String)
    (location : Option String) (outcome : FetchOutcome) :
    Except JsError SearchResult :=
  match outcome with
  | .failure e => .error e
  | .success resp =>
    if !respOk resp then
      .ok (.error ("Adzuna API returned error: " ++ toString resp.status ++
        " " ++ resp.statusText) [])
    else
      match resp.jsonBody with
      | .error e => .error e
      | .ok data => .ok (displayResult genId nowIso query location data)

/-- The fallback result after the loop ("All retries exhausted"). -/
def exhaustedResult (lastError : Option JsError) : SearchResult :=
  .error
    (match lastError with
     | some e =>
       if e.isErrorInstance then e.message
       else "Failed to fetch jobs from Adzuna after multiple retries"
     | none => "Failed to fetch jobs from Adzuna after multiple retries") []

/-- The message of the timeout-exhaustion error result. -/
def timeoutMsg : String :=
  "Adzuna API request timed out after " ++ toString maxRetries ++ " attempts"

/-- The message of the network-error exhaustion result. -/
def networkMsg (code : String) : String :=
  "Network error connecting to Adzuna: " ++ code

/-- The message of the non-retryable fallback branch. -/
def unexpectedMsg (e : JsError) : String :=
  if e.isErrorInstance then e.message
  else "An unexpected error occurred while searching Adzuna"

/-- The retry loop of `execute` (`for attempt = 1..maxRetries`), with the
remaining iteration count as explicit fuel (the call site passes
`maxRetries`, so `attempt + fuel = maxRetries + 1` throughout). Each
iteration consumes one `fetch`; a `continue` records the awaited backoff
delay `2^(attempt-1) * 1000` ms. -/
def retryLoop (net : Nat → FetchOutcome) (genId : Nat → String)
    (nowIso query : String) (location : Option String)
    (lastError : Option JsError) : Nat → Nat → SearchResult × ExecLog
  | _, 0 => (exhaustedResult lastError, ⟨0, []⟩)
  | attempt, fuel + 1 =>
    match tryAttempt genId nowIso query location (net attempt) with
    | .ok res => (res, ⟨1, []⟩)
    | .error e =>
      if e.name == "AbortError" then
        if attempt < maxRetries then
          let delay := 2 ^ (attempt - 1) * 1000
          let rest := retryLoop net genId nowIso query location (some e)
            (attempt + 1) fuel
          (rest.1, ⟨rest.2.fetchCalls + 1, delay :: rest.2.delays⟩)
        else
          (.error timeoutMsg [], ⟨1, []⟩)
      else if retryableCode (errorCodeOf e) then
        if attempt < maxRetries then
          let delay := 2 ^ (attempt - 1) * 1000
          let rest := retryLoop net genId nowIso query location (some e)
            (attempt + 1) fuel
          (rest.1, ⟨rest.2.fetchCalls + 1, delay :: rest.2.delays⟩)
        else
          (.error (networkMsg ((errorCodeOf e).getD "")) [], ⟨1, []⟩)
      else
        (.error (unexpectedMsg e) [], ⟨1, []⟩)

/-- `searchAdzunaJobs.execute`. The network oracle receives the outbound
query parameters (the URL's variable part) and the attempt number. -/
def execute (env : Env) (net : List (String × String) → Nat → FetchOutcome)
    (genId : Nat → String) (nowIso : String) (query : String)
    (location : Option String) (resultsCount : Option Int) :
    SearchResult × ExecLog :=
  let rc := resultsCount.getD 20
  if !strTruthy env.adzunaAppId || !strTruthy env.adzunaAppKey then
    (.error credsMissingMsg [], ⟨0, []⟩)
  else
    let params := buildParams (env.adzunaAppId.getD "") (env.adzunaAppKey.getD "")
      rc query location
    retryLoop (net params) genId nowIso query location none 1 maxRetries

/-- The `resultsCount` member of the zod input schema:
`z.number().min(1).max(50).default(20)`. An absent value defaults to 20;
an out-of-range value makes the parse fail. -/
def validateResultsCount : Option Int → Except String Int
  | none => .ok 20
  | some v =>
    if v < 1 then .error "Number must be greater than or equal to 1"
    else if v > 50 then .error "Number must be less than or equal to 50"
    else .ok v

/-- The `count` field of a result (`none` on the error shape). -/
def SearchResult.countOf : SearchResult → Option Nat
  | .display _ count _ _ _ => some count
  | .error .. => none

/-- The `location` field of a result (`none` on the error shape). -/
def SearchResult.locationOf : SearchResult → Option String
  | .display _ _ _ l _ => some l
  | .error .. => none

/-! ## Concrete fixtures for witnesses and counterexamples -/

/-- An environment with both credentials configured. -/
def envBoth : Env := ⟨some "test-app-id", some "test-app-key"⟩

/-- A constant id generator standing in for `uuidv4()`. -/
def uuidZero : Nat → String := fun _ => "00000000-0000-4000-8000-000000000000"

/-- Oracle: every fetch resolves 200 OK with an empty result list. -/
def netOkEmpty : List (String × String) → Nat → FetchOutcome :=
  fun _ _ => .success ⟨200, "OK", .ok ⟨[], 0, none⟩⟩

/-- The JS error a fired 10-second timeout produces. -/
def abortErr : JsError := ⟨"AbortError", "This operation was aborted", none, none, true⟩

/-- A fetch rejection whose `cause.code` is `ECONNRESET`. -/
def resetErr : JsError := ⟨"TypeError", "fetch failed", none, some "ECONNRESET", true⟩

/-- An `Error` instance carrying an empty message. -/
def emptyMsgErr : JsError := ⟨"Error", "", none, none, true⟩

/-- A non-retryable `Error` instance with a descriptive message. -/
def boomErr : JsError := ⟨"TypeError", "Unexpected token in JSON", none, none, true⟩

/-- Oracle: every fetch rejects with a timeout. -/
def netAbortAll : List (String × String) → Nat → FetchOutcome :=
  fun _ _ => .failure abortErr

/-- Oracle: every fetch rejects with `ECONNRESET`. -/
def netResetAll : List (String × String) → Nat → FetchOutcome :=
  fun _ _ => .failure resetErr

/-- Oracle: every fetch rejects with an empty-message `Error`. -/
def netEmptyMsgAll : List (String × String) → Nat → FetchOutcome :=
  fun _ _ => .failure emptyMsgErr

/-- Oracle: every fetch rejects with a non-retryable error. -/
def netBoomAll : List (String × String) → Nat → FetchOutcome :=
  fun _ _ => .failure boomErr

/-- Oracle: every fetch resolves with HTTP 500. -/
def netStatus500 : List (String × String) → Nat → FetchOutcome :=
  fun _ _ => .success ⟨500, "Internal Server Error", .ok ⟨[], 0, none⟩⟩

/-- Attempt-indexed oracle (as seen by the retry loop): always a timeout. -/
def netAAbort : Nat → FetchOutcome := fun _ => .failure abortErr

/-- Attempt-indexed oracle: always `ECONNRESET`. -/
def netAReset : Nat → FetchOutcome := fun _ => .failure resetErr

/-- Attempt-indexed oracle: always HTTP 500. -/
def netA500 : Nat → FetchOutcome :=
  fun _ => .success ⟨500, "Internal Server Error", .ok ⟨[], 0, none⟩⟩

/-- Attempt-indexed oracle: always 200 OK with one job. -/
def netAOkOne : Nat → FetchOutcome :=
  fun _ => .success ⟨200, "OK",
    .ok ⟨[{ id := "prov-1", title := "AI Engineer", company_display_name := "Acme",
            location_display_name := "San Francisco",
            description := "Bachelor's degree required and 5 years experience",
            salary_min := some 80000, salary_max := some 120000,
            redirect_url := "https://example.com/job/1" }], 1, none⟩⟩

/-! ## Helper lemmas -/

theorem startsWithL_append_self (m s : List Char) : startsWithL m (m ++ s) = true := by
  induction m with
  | nil => rfl
  | cons a as ih => simp [startsWithL, ih]

theorem includesFromL_append (p m s : List Char) :
    includesFromL m (p ++ (m ++ s)) = true := by
  induction p with
  | nil =>
    simp only [List.nil_append]
    cases m with
    | nil => cases s <;> simp [includesFromL, startsWithL]
    | cons b bs => simp [includesFromL, startsWithL, startsWithL_append_self]
  | cons a as ih =>
    simp only [List.cons_append, includesFromL, List.append_eq]
    rw [ih]
    simp

theorem jsIncludes_append (p m s : String) : jsIncludes (p ++ m ++ s) m = true := by
  have h : (p ++ m ++ s).data = p.data ++ (m.data ++ s.data) := by
    simp [String.data_append]
  simp [jsIncludes, h, includesFromL_append]

theorem str_append_ne_empty (s t : String) (h : s.length ≠ 0) : s ++ t ≠ "" := by
  intro he
  have hl := congrArg String.length he
  rw [String.length_append] at hl
  have h0 : ("" : String).length = 0 := rfl
  rw [h0] at hl
  omega

/-- Well-formedness of a result: an error carries an empty job list, a
display carries `count = jobs.length`. -/
def resultWF : SearchResult → Prop
  | .display jobs count _ _ _ => count = jobs.length
  | .error _ jobs => jobs = []

theorem tryAttempt_ok_wf {genId : Nat → String} {nowIso query : String}
    {location : Option String} {outcome : FetchOutcome} {res : SearchResult}
    (h : tryAttempt genId nowIso query location outcome = .ok res) :
    resultWF res := by
  unfold tryAttempt at h
  split at h
  · exact absurd h (by simp)
  · split at h
    · injection h with h'
      subst h'
      simp [resultWF]
    · split at h
      · exact absurd h (by simp)
      · injection h with h'
        subst h'
        simp [resultWF, displayResult]

theorem statusMsg_ne_empty (status : Nat) (text : String) :
    ("Adzuna API returned error: " ++ toString status ++ " " ++ text) ≠ "" := by
  apply str_append_ne_empty
  rw [String.length_append, String.length_append]
  have h27 : ("Adzuna API returned error: " : String).length = 27 := rfl
  have h1 : (" " : String).length = 1 := rfl
  omega

theorem tryAttempt_ok_error_ne {genId : Nat → String} {nowIso query : String}
    {location : Option String} {outcome : FetchOutcome} {msg : String}
    {jobs : List Job}
    (h : tryAttempt genId nowIso query location outcome = .ok (.error msg jobs)) :
    msg ≠ "" := by
  unfold tryAttempt at h
  split at h
  · exact absurd h (by simp)
  · split at h
    · injection h with h'
      injection h' with h1 h2
      subst h1
      exact statusMsg_ne_empty _ _
    · split at h
      · exact absurd h (by simp)
      · injection h with h'
        exact absurd h' (by simp [displayResult])

theorem retryLoop_wf (net : Nat → FetchOutcome) (genId : Nat → String)
    (nowIso query : String) (location : Option String) :
    ∀ fuel lastError attempt,
      resultWF (retryLoop net genId nowIso query location lastError attempt fuel).1 := by
  intro fuel
  induction fuel with
  | zero =>
    intro le a
    simp [retryLoop, exhaustedResult, resultWF]
  | succ f ih =>
    intro le a
    simp only [retryLoop]
    split
    · next res hres => exact tryAttempt_ok_wf hres
    · next e he =>
      split
      · split
        · exact ih (some e) (a + 1)
        · simp [resultWF]
      · split
        · split
          · exact ih (some e) (a + 1)
          · simp [resultWF]
        · simp [resultWF]

theorem retryLoop_fetchCalls_le (net : Nat → FetchOutcome) (genId : Nat → String)
    (nowIso query : String) (location : Option String) :
    ∀ fuel lastError attempt,
      (retryLoop net genId nowIso query location lastError attempt fuel).2.fetchCalls ≤ fuel := by
  intro fuel
  induction fuel with
  | zero => intro le a; simp [retryLoop]
  | succ f ih =>
    intro le a
    simp only [retryLoop]
    split
    · simp
    · next e he =>
      split
      · split
        · simpa using Nat.succ_le_succ (ih (some e) (a + 1))
        · simp
      · split
        · split
          · simpa using Nat.succ_le_succ (ih (some e) (a + 1))
          · simp
        · simp

/-- A JS error value whose `message` is non-empty whenever it claims to be
an `instanceof Error` (true of every error `fetch` or `json()` produce in
practice, but not enforced by the code). -/
def errMsgOK (e : JsError) : Prop := e.isErrorInstance = true → e.message ≠ ""

/-- All error values carried by a fetch outcome satisfy `errMsgOK`. -/
def outcomeMsgOK : FetchOutcome → Prop
  | .failure e => errMsgOK e
  | .success r =>
    match r.jsonBody with
    | .error e => errMsgOK e
    | .ok _ => True

/-- `errMsgOK` lifted to the loop's `lastError` accumulator. -/
def lastErrOK : Option JsError → Prop
  | none => True
  | some e => errMsgOK e

theorem tryAttempt_error_msgOK {genId : Nat → String} {nowIso query : String}
    {location : Option String} {outcome : FetchOutcome} {e : JsError}
    (ho : outcomeMsgOK outcome)
    (h : tryAttempt genId nowIso query location outcome = .error e) :
    errMsgOK e := by
  unfold tryAttempt at h
  split at h
  · next e' =>
    injection h with h'
    subst h'
    exact ho
  · next resp =>
    split at h
    · exact absurd h (by simp)
    · split at h
      · next e' hb =>
        injection h with h'
        subst h'
        simpa [outcomeMsgOK, hb] using ho
      · exact absurd h (by simp)

theorem networkMsg_ne_empty (code : String) : networkMsg code ≠ "" := by
  apply str_append_ne_empty
  intro h
  exact absurd h (by decide)

theorem retryLoop_error_ne (net : Nat → FetchOutcome) (genId : Nat → String)
    (nowIso query : String) (location : Option String)
    (hnet : ∀ a, outcomeMsgOK (net a)) :
    ∀ fuel lastError attempt, lastErrOK lastError →
      ∀ msg jobs,
        (retryLoop net genId nowIso query location lastError attempt fuel).1 =
          .error msg jobs → msg ≠ "" := by
  intro fuel
  induction fuel with
  | zero =>
    intro le a hle msg jobs h
    simp only [retryLoop, exhaustedResult] at h
    injection h with h1 h2
    subst h1
    cases le with
    | none => decide
    | some e =>
      cases hi : e.isErrorInstance with
      | true => simpa [hi] using hle hi
      | false => simp only [hi]; rw [if_neg Bool.false_ne_true]; decide
  | succ f ih =>
    intro le a hle msg jobs h
    simp only [retryLoop] at h
    split at h
    · next res hres =>
      simp only at h
      subst h
      exact tryAttempt_ok_error_ne hres
    · next e he =>
      have hok : errMsgOK e := tryAttempt_error_msgOK (hnet a) he
      split at h
      · split at h
        · exact ih (some e) (a + 1) hok msg jobs (by simpa using h)
        · simp only [Prod.fst] at h
          injection h with h1 h2
          subst h1
          decide
      · split at h
        · split at h
          · exact ih (some e) (a + 1) hok msg jobs (by simpa using h)
          · injection h with h1 h2
            subst h1
            exact networkMsg_ne_empty _
        · injection h with h1 h2
          subst h1
          unfold unexpectedMsg
          cases hi : e.isErrorInstance with
          | true => simpa [hi] using hok hi
          | false => rw [if_neg Bool.false_ne_true]; decide

theorem execute_wf (env : Env) (net : List (String × String) → Nat → FetchOutcome)
    (genId : Nat → String) (nowIso query : String) (location : Option String)
    (resultsCount : Option Int) :
    resultWF (execute env net genId nowIso query location resultsCount).1 := by
  unfold execute
  split
  · simp [resultWF]
  · exact retryLoop_wf _ _ _ _ _ maxRetries none 1

theorem execute_fetchCalls_le (env : Env)
    (net : List (String × String) → Nat → FetchOutcome) (genId : Nat → String)
    (nowIso query : String) (location : Option String) (resultsCount : Option Int) :
    (execute env net genId nowIso query location resultsCount).2.fetchCalls ≤ maxRetries := by
  unfold execute
  split
  · simp
  · exact retryLoop_fetchCalls_le _ _ _ _ _ maxRetries none 1

theorem execute_error_ne (env : Env)
    (net : List (String × String) → Nat → FetchOutcome) (genId : Nat → String)
    (nowIso query : String) (location : Option String) (resultsCount : Option Int)
    (hnet : ∀ p a, outcomeMsgOK (net p a)) :
    ∀ msg jobs,
      (execute env net genId nowIso query location resultsCount).1 =
        .error msg jobs → msg ≠ "" := by
  intro msg jobs h
  unfold execute at h
  split at h
  · injection h with h1 h2
    subst h1
    decide
  · exact retryLoop_error_ne _ _ _ _ _ (hnet _) maxRetries none 1 trivial msg jobs h

/-! ## Claim theorems -/

/-- C1: for every input (query, optional location, resultsCount) and every
environment/network outcome, `execute` never throws: it is a total
function into `SearchResult` (the catch analysis in `retryLoop` consumes
every thrown error), the result is tagged `display` or `error`, and a
non-retryable failure on the first attempt resolves to an `error`-tagged
result rather than a propagated fault. -/
theorem execute_total_action_tagged :
    (∀ env net genId nowIso query location resultsCount,
      (execute env net genId nowIso query location resultsCount).1.action =
        "display" ∨
      (execute env net genId nowIso query location resultsCount).1.action =
        "error") ∧
    (∀ env net genId nowIso query location resultsCount e,
      strTruthy env.adzunaAppId = true → strTruthy env.adzunaAppKey = true →
      tryAttempt genId nowIso query location
        (net (buildParams (env.adzunaAppId.getD "") (env.adzunaAppKey.getD "")
          (resultsCount.getD 20) query location) 1) = .error e →
      (e.name == "AbortError") = false →
      retryableCode (errorCodeOf e) = false →
      (execute env net genId nowIso query location resultsCount).1 =
        .error (unexpectedMsg e) []) := by
  constructor
  · intro env net genId nowIso query location resultsCount
    cases h : (execute env net genId nowIso query location resultsCount).1 with
    | display _ _ _ _ _ => left; simp [SearchResult.action]
    | error _ _ => right; simp [SearchResult.action]
  · intro env net genId nowIso q loc rc e h1 h2 htry hname hcode
    unfold execute
    simp only [h1, h2, Bool.not_true, Bool.or_self, Bool.false_eq_true, if_false]
    have hm : maxRetries = 2 + 1 := rfl
    rw [hm]
    simp only [retryLoop, htry, hname, hcode]
    simp

/-- Witness for C1: a concrete non-retryable failure yields the
error-tagged result. -/
theorem execute_total_action_tagged_witness :
    (execute envBoth netBoomAll uuidZero "2025-01-01T00:00:00.000Z" "engineer"
      none none).1 = .error (unexpectedMsg boomErr) [] :=
  execute_total_action_tagged.2 envBoth netBoomAll uuidZero
    "2025-01-01T00:00:00.000Z" "engineer" none none boomErr rfl rfl rfl
    (by decide) (by decide)

/-- C2 counterexample: the claimed invariant "`action == \x22error\x22` implies
the error string is non-empty" fails. A caught `Error` instance with an
empty `message` (JS `new Error()`) reaches the non-retryable branch, whose
result carries `error.message` verbatim: the error string is empty. -/
theorem searchResult_error_empty_string_cex :
    (execute envBoth netEmptyMsgAll uuidZero "t" "q" none none).1.action =
      "error" ∧
    (execute envBoth netEmptyMsgAll uuidZero "t" "q" none none).1.errStr =
      some "" := ⟨rfl, rfl⟩

/-- C2 (amended): every result of `execute` satisfies: `action == "error"`
implies `jobs` is empty; `action == "display"` implies `count` equals the
length of `jobs`; and the error string is non-empty provided every error
value the network produces carries a non-empty message whenever it is an
`instanceof Error` (the code copies `error.message` verbatim, so an
empty-message `Error` yields an empty error string). -/
theorem searchResult_invariant_amended :
    ∀ env net genId nowIso query location resultsCount,
      ((execute env net genId nowIso query location resultsCount).1.action =
          "error" →
        (execute env net genId nowIso query location resultsCount).1.jobsOf =
          []) ∧
      ((execute env net genId nowIso query location resultsCount).1.action =
          "display" →
        (execute env net genId nowIso query location resultsCount).1.countOf =
          some (execute env net genId nowIso query location
            resultsCount).1.jobsOf.length) ∧
      ((∀ p a, outcomeMsgOK (net p a)) →
        ∀ msg jobs,
          (execute env net genId nowIso query location resultsCount).1 =
            .error msg jobs → msg ≠ "") := by
  intro env net genId nowIso q loc rc
  have hwf := execute_wf env net genId nowIso q loc rc
  refine ⟨?_, ?_, ?_⟩
  · intro ha
    cases h : (execute env net genId nowIso q loc rc).1 with
    | display _ _ _ _ _ =>
      rw [h] at ha
      exact absurd ha (by simp [SearchResult.action])
    | error m js =>
      rw [h] at hwf
      simpa [SearchResult.jobsOf, resultWF] using hwf
  · intro ha
    cases h : (execute env net genId nowIso q loc rc).1 with
    | display jobs count _ _ _ =>
      rw [h] at hwf
      simpa [SearchResult.countOf, SearchResult.jobsOf, resultWF] using hwf
    | error m js =>
      rw [h] at ha
      exact absurd ha (by simp [SearchResult.action])
  · intro hnet msg jobs h
    exact execute_error_ne env net genId nowIso q loc rc hnet msg jobs h

/-- Witness for C2 (amended): on a concrete HTTP 500 run, the jobs list is
empty and the error string is non-empty. -/
theorem searchResult_invariant_amended_witness :
    (execute envBoth netStatus500 uuidZero "t" "q" none none).1.jobsOf = [] ∧
    ("Adzuna API returned error: 500 Internal Server Error" : String) ≠ "" := by
  have h := searchResult_invariant_amended envBoth netStatus500 uuidZero
    "t" "q" none none
  exact ⟨h.1 rfl, h.2.2 (fun _ _ => trivial)
    "Adzuna API returned error: 500 Internal Server Error" [] rfl⟩

/-- C3: whenever an attempt fails with a timeout (`AbortError`) or a
network-level error whose code is `ETIMEDOUT`, `ECONNRESET` or
`ECONNREFUSED`, and the attempt number is below `maxRetries = 3`, the loop
awaits `2^(attempt-1) * 1000` milliseconds and then performs the next
attempt; and no input ever causes more than 3 network attempts. -/
theorem retry_backoff_and_attempt_bound :
    (∀ (net : Nat → FetchOutcome) (genId : Nat → String)
        (nowIso query : String) (location : Option String)
        (lastError : Option JsError) (attempt fuel : Nat) (e : JsError),
      tryAttempt genId nowIso query location (net attempt) = .error e →
      ((e.name == "AbortError") || retryableCode (errorCodeOf e)) = true →
      attempt < maxRetries →
      retryLoop net genId nowIso query location lastError attempt (fuel + 1) =
        ((retryLoop net genId nowIso query location (some e) (attempt + 1)
            fuel).1,
         ⟨(retryLoop net genId nowIso query location (some e) (attempt + 1)
             fuel).2.fetchCalls + 1,
          2 ^ (attempt - 1) * 1000 ::
            (retryLoop net genId nowIso query location (some e) (attempt + 1)
              fuel).2.delays⟩)) ∧
    (∀ env net genId nowIso query location resultsCount,
      (execute env net genId nowIso query location
        resultsCount).2.fetchCalls ≤ 3) := by
  constructor
  · intro net genId nowIso q loc le a f e htry hclass hlt
    simp only [retryLoop, htry]
    cases hn : (e.name == "AbortError") with
    | true => simp [hn, hlt]
    | false =>
      have hr : retryableCode (errorCodeOf e) = true := by
        rw [hn] at hclass
        simpa using hclass
      simp [hn, hr, hlt]
  · intro env net genId nowIso q loc rc
    exact execute_fetchCalls_le env net genId nowIso q loc rc

/-- Witness for C3: on a concrete all-timeouts oracle, attempt 1 waits
1000 ms and advances to attempt 2. -/
theorem retry_backoff_and_attempt_bound_witness :
    retryLoop netAAbort uuidZero "t" "q" none none 1 (2 + 1) =
      ((retryLoop netAAbort uuidZero "t" "q" none (some abortErr) 2 2).1,
       ⟨(retryLoop netAAbort uuidZero "t" "q" none (some abortErr) 2
           2).2.fetchCalls + 1,
        2 ^ (1 - 1) * 1000 ::
          (retryLoop netAAbort uuidZero "t" "q" none (some abortErr) 2
            2).2.delays⟩) :=
  retry_backoff_and_attempt_bound.1 netAAbort uuidZero "t" "q" none none 1 2
    abortErr rfl (by decide) (by decide)

/-- C4 counterexample: a retryable network-code failure (`ECONNRESET`) on
the final attempt yields the error string
"Network error connecting to Adzuna: ECONNRESET", which does not include
the number of attempts made (it does not even contain the digit 3), so the
claim that every final-attempt timeout/network error message includes the
attempt count fails. -/
theorem final_attempt_no_count_cex :
    (execute envBoth netResetAll uuidZero "t" "q" none none).1 =
      .error "Network error connecting to Adzuna: ECONNRESET" [] ∧
    jsIncludes "Network error connecting to Adzuna: ECONNRESET" "3" =
      false := ⟨rfl, by decide⟩

/-- C4 (amended): on the final attempt, a timeout returns the error
"Adzuna API request timed out after 3 attempts" (which includes the
number of attempts made), while a retryable network-code failure returns
"Network error connecting to Adzuna: \<code\>" (which names the network
condition but not the attempt count). -/
theorem final_attempt_error_messages :
    (∀ (net : Nat → FetchOutcome) (genId : Nat → String)
        (nowIso query : String) (location : Option String)
        (lastError : Option JsError) (fuel : Nat) (e : JsError),
      tryAttempt genId nowIso query location (net maxRetries) = .error e →
      (e.name == "AbortError") = true →
      retryLoop net genId nowIso query location lastError maxRetries
        (fuel + 1) = (.error timeoutMsg [], ⟨1, []⟩)) ∧
    jsIncludes timeoutMsg "3 attempts" = true ∧
    (∀ (net : Nat → FetchOutcome) (genId : Nat → String)
        (nowIso query : String) (location : Option String)
        (lastError : Option JsError) (fuel : Nat) (e : JsError),
      tryAttempt genId nowIso query location (net maxRetries) = .error e →
      (e.name == "AbortError") = false →
      retryableCode (errorCodeOf e) = true →
      retryLoop net genId nowIso query location lastError maxRetries
        (fuel + 1) =
        (.error (networkMsg ((errorCodeOf e).getD "")) [], ⟨1, []⟩)) ∧
    (∀ code, jsIncludes (networkMsg code) code = true) := by
  refine ⟨?_, by decide, ?_, ?_⟩
  · intro net genId nowIso q loc le f e htry hname
    simp only [retryLoop, htry, hname]
    simp [lt_irrefl]
  · intro net genId nowIso q loc le f e htry hname hcode
    simp only [retryLoop, htry, hname, hcode]
    simp [lt_irrefl]
  · intro code
    have h := jsIncludes_append "Network error connecting to Adzuna: " code ""
    rw [String.append_empty] at h
    exact h

/-- Witness for C4 (amended): a concrete timeout on the final attempt
returns the timeout-exhaustion error. -/
theorem final_attempt_error_messages_witness :
    retryLoop netAAbort uuidZero "t" "q" none none maxRetries (0 + 1) =
      (.error timeoutMsg [], ⟨1, []⟩) :=
  final_attempt_error_messages.1 netAAbort uuidZero "t" "q" none none 0
    abortErr rfl (by decide)

/-- C5: whenever a fetch resolves with a non-success status code
(`response.ok` false), the loop terminates at once — exactly one fetch in
that iteration, no delay, no recursion — returning an error-tagged result
whose error string contains the numeric status and the status text. -/
theorem http_status_error_no_retry :
    ∀ (net : Nat → FetchOutcome) (genId : Nat → String)
      (nowIso query : String) (location : Option String)
      (lastError : Option JsError) (attempt fuel : Nat)
      (resp : HttpResponse),
      net attempt = .success resp → respOk resp = false →
      retryLoop net genId nowIso query location lastError attempt (fuel + 1) =
        (.error ("Adzuna API returned error: " ++ toString resp.status ++
          " " ++ resp.statusText) [], ⟨1, []⟩) ∧
      jsIncludes ("Adzuna API returned error: " ++ toString resp.status ++
        " " ++ resp.statusText) (toString resp.status) = true ∧
      jsIncludes ("Adzuna API returned error: " ++ toString resp.status ++
        " " ++ resp.statusText) resp.statusText = true := by
  intro net genId nowIso q loc le a f resp hs hok
  refine ⟨?_, ?_, ?_⟩
  · simp only [retryLoop, tryAttempt, hs, hok]
    simp
  · have h : "Adzuna API returned error: " ++ toString resp.status ++ " " ++
        resp.statusText =
        "Adzuna API returned error: " ++ toString resp.status ++
          (" " ++ resp.statusText) := by
      rw [String.append_assoc]
    rw [h]
    exact jsIncludes_append _ _ _
  · have h : "Adzuna API returned error: " ++ toString resp.status ++ " " ++
        resp.statusText =
        ("Adzuna API returned error: " ++ toString resp.status ++ " ") ++
          resp.statusText ++ "" := by
      rw [String.append_empty]
    rw [h]
    exact jsIncludes_append _ _ _

/-- Witness for C5: a concrete HTTP 500 response on attempt 1 returns at
once with the status in the message. -/
theorem http_status_error_no_retry_witness :
    retryLoop netA500 uuidZero "t" "q" none none 1 (2 + 1) =
      (.error ("Adzuna API returned error: " ++ toString (500 : Nat) ++ " " ++
        "Internal Server Error") [], ⟨1, []⟩) ∧
    jsIncludes ("Adzuna API returned error: " ++ toString (500 : Nat) ++ " " ++
      "Internal Server Error") (toString (500 : Nat)) = true ∧
    jsIncludes ("Adzuna API returned error: " ++ toString (500 : Nat) ++ " " ++
      "Internal Server Error") "Internal Server Error" = true :=
  http_status_error_no_retry netA500 uuidZero "t" "q" none none 1 2
    ⟨500, "Internal Server Error", .ok ⟨[], 0, none⟩⟩ rfl (by decide)

/-- C6: if either credential environment value is absent, `execute`
returns immediately with the `error`-tagged result naming ADZUNA_APP_ID
and ADZUNA_APP_KEY, an empty jobs list, and zero network calls. -/
theorem missing_credentials_immediate_error :
    ∀ env net genId nowIso query location resultsCount,
      env.adzunaAppId = none ∨ env.adzunaAppKey = none →
      execute env net genId nowIso query location resultsCount =
        (.error credsMissingMsg [], ⟨0, []⟩) ∧
      jsIncludes credsMissingMsg "ADZUNA_APP_ID" = true ∧
      jsIncludes credsMissingMsg "ADZUNA_APP_KEY" = true := by
  intro env net genId nowIso q loc rc h
  refine ⟨?_, by decide, by decide⟩
  unfold execute
  cases h with
  | inl h1 => simp [h1, strTruthy]
  | inr h2 => simp [h2, strTruthy]

/-- Witness for C6: a concrete environment missing the app id. -/
theorem missing_credentials_immediate_error_witness :
    execute ⟨none, some "test-app-key"⟩ netOkEmpty uuidZero "t" "q" none none =
      (.error credsMissingMsg [], ⟨0, []⟩) ∧
    jsIncludes credsMissingMsg "ADZUNA_APP_ID" = true ∧
    jsIncludes credsMissingMsg "ADZUNA_APP_KEY" = true :=
  missing_credentials_immediate_error ⟨none, some "test-app-key"⟩ netOkEmpty
    uuidZero "t" "q" none none (Or.inl rfl)

/-- C7: the input schema rejects any `resultsCount` outside [1,50] (and
defaults an absent one to 20), and for every schema-accepted value the
outbound `results_per_page` query parameter is exactly that in-range
value — no out-of-range value can appear in the request. -/
theorem resultsCount_validated_range :
    (∀ v : Int, v < 1 ∨ v > 50 →
      ∃ msg, validateResultsCount (some v) = .error msg) ∧
    (∀ rawCount n, validateResultsCount rawCount = .ok n →
      1 ≤ n ∧ n ≤ 50 ∧
      ∀ appId apiKey query location,
        List.lookup "results_per_page"
          (buildParams appId apiKey n query location) = some (toString n)) := by
  constructor
  · intro v hv
    simp only [validateResultsCount]
    by_cases h1 : v < 1
    · rw [if_pos h1]
      exact ⟨_, rfl⟩
    · have h2 : v > 50 := hv.resolve_left h1
      rw [if_neg h1, if_pos h2]
      exact ⟨_, rfl⟩
  · intro raw n h
    have hrange : 1 ≤ n ∧ n ≤ 50 := by
      cases raw with
      | none =>
        simp only [validateResultsCount] at h
        injection h with h'
        subst h'
        exact ⟨by norm_num, by norm_num⟩
      | some v =>
        simp only [validateResultsCount] at h
        by_cases h1 : v < 1
        · rw [if_pos h1] at h
          exact absurd h (by simp)
        · by_cases h2 : v > 50
          · rw [if_neg h1, if_pos h2] at h
            exact absurd h (by simp)
          · rw [if_neg h1, if_neg h2] at h
            injection h with h'
            subst h'
            omega
    exact ⟨hrange.1, hrange.2, fun appId apiKey q loc => rfl⟩

/-- Witness for C7: the default 20 is accepted and lands verbatim in
`results_per_page`. -/
theorem resultsCount_validated_range_witness :
    1 ≤ (20 : Int) ∧ (20 : Int) ≤ 50 ∧
    List.lookup "results_per_page"
      (buildParams "test-app-id" "test-app-key" 20 "engineer" none) =
      some (toString (20 : Int)) := by
  have h := resultsCount_validated_range.2 none 20 rfl
  exact ⟨h.1, h.2.1, h.2.2 "test-app-id" "test-app-key" "engineer" none⟩

/-- C8 counterexample: the claim "if only `salary_min` is present, the
salary is `$<min>+`" fails at `salary_min = 0`: the source guards with JS
truthiness, so a present-but-zero minimum produces no salary at all. -/
theorem salary_zero_min_cex :
    Option.isSome (some (0 : Nat)) = true ∧
    formatSalary (some 0) none = none := ⟨rfl, rfl⟩

/-- C8 (amended): if both salary bounds are present and non-zero the
salary is "$\<min\> - $\<max\>" with thousands separators; if the minimum is
present and non-zero and the maximum is absent or zero it is "$\<min\>+";
if the minimum is absent or zero the salary field is absent (not an empty
string). Concretely: 80000/120000 ↦ "$80,000 - $120,000", 80000/absent ↦
"$80,000+", absent/absent ↦ no salary. -/
theorem salary_formatting_amended :
    (∀ a b : Nat, a ≠ 0 → b ≠ 0 →
      formatSalary (some a) (some b) =
        some ("$" ++ localeString a ++ " - $" ++ localeString b)) ∧
    (∀ (a : Nat) (mx : Option Nat), a ≠ 0 → numTruthy mx = false →
      formatSalary (some a) mx = some ("$" ++ localeString a ++ "+")) ∧
    (∀ mn mx : Option Nat, numTruthy mn = false → formatSalary mn mx = none) ∧
    formatSalary (some 80000) (some 120000) = some "$80,000 - $120,000" ∧
    formatSalary (some 80000) none = some "$80,000+" ∧
    formatSalary none none = none := by
  refine ⟨?_, ?_, ?_, rfl, rfl, rfl⟩
  · intro a b ha hb
    simp [formatSalary, numTruthy, ha, hb]
  · intro a mx ha hmx
    have hA : numTruthy (some a) = true := by simp [numTruthy, ha]
    simp [formatSalary, hA, hmx]
  · intro mn mx hmn
    simp [formatSalary, hmn]

/-- Witness for C8 (amended): the spec's concrete example through the
general clause. -/
theorem salary_formatting_amended_witness :
    formatSalary (some 80000) (some 120000) =
      some ("$" ++ localeString 80000 ++ " - $" ++ localeString 120000) :=
  salary_formatting_amended.1 80000 120000 (by decide) (by decide)

/-- C9: the derived requirements are exactly the two fixed strings,
governed by two independent substring checks on the lowercased
description; when both fire, the degree requirement precedes the
experience requirement; nothing else is ever produced. -/
theorem requirements_extraction_characterized :
    (∀ d : String,
      ("Bachelor's degree or equivalent experience" ∈ extractRequirements d ↔
        (jsIncludes (jsToLower d) "bachelor" ||
          jsIncludes (jsToLower d) "degree") = true) ∧
      ("Relevant professional experience" ∈ extractRequirements d ↔
        jsIncludes (jsToLower d) "experience" = true) ∧
      (∀ r ∈ extractRequirements d,
        r = "Bachelor's degree or equivalent experience" ∨
        r = "Relevant professional experience") ∧
      ((jsIncludes (jsToLower d) "bachelor" ||
          jsIncludes (jsToLower d) "degree") = true →
        jsIncludes (jsToLower d) "experience" = true →
        extractRequirements d =
          ["Bachelor's degree or equivalent experience",
           "Relevant professional experience"])) ∧
    extractRequirements "Bachelor's degree required and 5 years experience" =
      ["Bachelor's degree or equivalent experience",
       "Relevant professional experience"] := by
  have hne : ("Bachelor's degree or equivalent experience" : String) ≠
      "Relevant professional experience" := by decide
  constructor
  · intro d
    unfold extractRequirements
    cases h1 : (jsIncludes (jsToLower d) "bachelor" || jsIncludes (jsToLower d) "degree") with
    | true =>
      cases h2 : jsIncludes (jsToLower d) "experience" with
      | true => simp [h1, h2, hne]
      | false => simp [h1, h2, hne]
    | false =>
      cases h2 : jsIncludes (jsToLower d) "experience" with
      | true => simp [h1, h2, hne.symm]
      | false => simp [h1, h2]
  · rfl

/-- Witness for C9: the spec's example description yields exactly the two
fixed requirement strings in order. -/
theorem requirements_extraction_characterized_witness :
    "Bachelor's degree or equivalent experience" ∈
      extractRequirements
        "Bachelor's degree required and 5 years experience" := by
  have h := requirements_extraction_characterized.1
    "Bachelor's degree required and 5 years experience"
  exact h.1.mpr (by decide)

/-- C10 counterexample: a present-but-empty location (`some ""`) is
"present" yet is NOT passed as the `where` query parameter (the source
guards with JS truthiness, `if (location)`), and the success result echoes
the sentinel "all locations" instead of the supplied value. -/
theorem empty_location_cex :
    Option.isSome (some "") = true ∧
    List.lookup "where" (buildParams "test-app-id" "test-app-key" 20 "q"
      (some "")) = none ∧
    (execute envBoth netOkEmpty uuidZero "t" "q" (some "") none).1 =
      .display [] 0 "q" "all locations" "Found 0 jobs matching \"q\"" :=
  ⟨rfl, rfl, rfl⟩

/-- C10 (amended): a present and non-empty location is passed as the
`where` query parameter; an absent or empty location yields no `where`
parameter at all (never an empty string); and the success result echoes
the location when it is non-empty, else the sentinel "all locations". -/
theorem location_param_and_echo_amended :
    (∀ (appId apiKey : String) (rc : Int) (query s : String), s ≠ "" →
      List.lookup "where" (buildParams appId apiKey rc query (some s)) =
        some s) ∧
    (∀ (appId apiKey : String) (rc : Int) (query : String)
        (location : Option String), strTruthy location = false →
      List.lookup "where" (buildParams appId apiKey rc query location) =
        none) ∧
    (∀ (net : Nat → FetchOutcome) (genId : Nat → String)
        (nowIso query : String) (location : Option String)
        (lastError : Option JsError) (attempt fuel : Nat)
        (resp : HttpResponse) (data : AdzunaResponse),
      net attempt = .success resp → respOk resp = true →
      resp.jsonBody = .ok data →
      retryLoop net genId nowIso query location lastError attempt (fuel + 1) =
        (displayResult genId nowIso query location data, ⟨1, []⟩)) ∧
    (∀ (genId : Nat → String) (nowIso query : String)
        (location : Option String) (data : AdzunaResponse),
      (displayResult genId nowIso query location data).locationOf =
        some (if strTruthy location then location.getD ""
          else "all locations")) := by
  refine ⟨?_, ?_, ?_, ?_⟩
  · intro appId apiKey rc query s hs
    have hst : strTruthy (some s) = true := by simp [strTruthy, hs]
    simp [buildParams, hst, List.lookup]
  · intro appId apiKey rc query loc hloc
    simp [buildParams, hloc, List.lookup]
  · intro net genId nowIso q loc le a f resp data hs hok hb
    simp only [retryLoop, tryAttempt, hs, hok, hb]
    simp
  · intro genId nowIso q loc data
    rfl

/-- Witness for C10 (amended): a concrete non-empty location appears as
the `where` parameter. -/
theorem location_param_and_echo_amended_witness :
    List.lookup "where" (buildParams "test-app-id" "test-app-key" 20
      "engineer" (some "San Francisco")) = some "San Francisco" :=
  location_param_and_echo_amended.1 "test-app-id" "test-app-key" 20
    "engineer" "San Francisco" (by decide)
